import Mathlib

/-!
# Elasticsearch package association resource

A shallow embedding of `aws/resource_aws_elasticsearch_package_association.go`:
the resource schema, the three lifecycle operations (Create, Read, Delete) and
the private lookup helper `getElasticsearchPackageAssociation`.

Modelling conventions.

* A Go pointer `*T` is `Option T` (`nil` is `none`); `aws.String x` is `some x`.
* The remote service is a value `conn` whose answers may depend on every call
  made before, so any deterministic remote with internal state is covered. The
  calls made so far are threaded through the operations as a `List Call`.
* A Go function returning `error` yields a `Run`: the resource data after the
  call, the calls made, and how the function left (`return nil`, `return err`,
  or a nil-pointer dereference).
* `log.Printf` only writes to the log and is not modelled.
-/

namespace EsPackageAssociation

/-! ## Errors and SDK values -/

/-- A Go `error` value. `code` is `some c` exactly when the value implements
`awserr.Error` with `Code() = c`; `message` is then its `Message()`. `text` is
what `Error()` returns. -/
structure GoError where
  code : Option String
  message : String
  text : String
deriving DecidableEq, Repr

namespace fmt

/-- The error made by `fmt.Errorf` once its format string is expanded to
`text`: a plain error, not an `awserr.Error`. -/
def Errorf (text : String) : GoError :=
  { code := none, message := "", text := text }

end fmt

namespace aws

/-- The SDK helper `aws.StringValue`: the pointed-to string, or the empty
string for a nil pointer. -/
def StringValue (p : Option String) : String :=
  match p with
  | some s => s
  | none => ""

end aws

/-- The Go function `strings.Contains`. -/
def stringsContains (s substr : String) : Bool :=
  decide (substr.data <:+: s.data)

/-- Modelled from the spec: `isAWSErr` is a helper of this repository that is
not in the source file. The spec has Read treat a lookup that "reports
not-found" as absence; the helper reports whether the error is an AWS error
with the given code whose message contains the given text. -/
def isAWSErr (err : GoError) (code message : String) : Bool :=
  match err.code with
  | some c => c == code && stringsContains err.message message
  | none => false

/-- The fields of `elasticsearch.PackageDetails` that the resource reads. -/
structure PackageDetails where
  PackageID : Option String
  PackageName : Option String
  PackageDescription : Option String
  PackageType : Option String
deriving DecidableEq, Repr

/-- The fields of `elasticsearch.DomainPackageDetails` that the resource reads. -/
structure DomainPackageDetails where
  DomainName : Option String
  PackageID : Option String
deriving DecidableEq, Repr

/-- The request of `AssociatePackage`. -/
structure AssociatePackageInput where
  DomainName : Option String
  PackageID : Option String
deriving DecidableEq, Repr

/-- The response of `AssociatePackage`. -/
structure AssociatePackageOutput where
  DomainPackageDetails : Option DomainPackageDetails
deriving DecidableEq, Repr

/-- One filter of a `DescribePackages` request. -/
structure DescribePackagesFilter where
  Name : Option String
  Value : List (Option String)
deriving DecidableEq, Repr

/-- The request of `DescribePackages`; the source sets only `Filters`. -/
structure DescribePackagesInput where
  Filters : List DescribePackagesFilter
deriving DecidableEq, Repr

/-- The response of `DescribePackages`. The Go field is a slice of pointers,
so a record of the list may be nil. -/
structure DescribePackagesOutput where
  PackageDetailsList : List (Option PackageDetails)
deriving DecidableEq, Repr

/-- The request of `DeletePackage`. -/
structure DeletePackageInput where
  PackageID : Option String
deriving DecidableEq, Repr

/-- A call made to the remote service. -/
inductive Call where
  | AssociatePackage (input : AssociatePackageInput)
  | DescribePackages (input : DescribePackagesInput)
  | DeletePackage (input : DeletePackageInput)
deriving DecidableEq, Repr

/-- The service client `*elasticsearch.ElasticsearchService`. Each method gets
the calls made before it and the request. A method of the SDK returns an
output pointer and an error; the source looks at the output only when the
error is nil, so an answer is either the error or the output pointer.
The output of `DeletePackage` is discarded by the source, so only its error
is kept. -/
structure ElasticsearchService where
  AssociatePackage : List Call → AssociatePackageInput →
    Except GoError (Option AssociatePackageOutput)
  DescribePackages : List Call → DescribePackagesInput →
    Except GoError (Option DescribePackagesOutput)
  DeletePackage : List Call → DeletePackageInput → Option GoError

/-! ## Resource schema and resource data -/

/-- One entry of the schema map; every field of this resource is a
`schema.TypeString`. -/
structure Schema where
  Required : Bool := false
  ForceNew : Bool := false
  Computed : Bool := false
deriving DecidableEq, Repr

/-- The `Schema` map of `resourceAwsElasticsearchPackageAssociation`. -/
def resourceAwsElasticsearchPackageAssociation : List (String × Schema) :=
  [ ("domain_name", { Required := true, ForceNew := true }),
    ("package_id", { Required := true, ForceNew := true }),
    ("domain_package_status", { Computed := true }),
    ("package_name", { Computed := true }),
    ("package_type", { Computed := true }),
    ("reference_path", { Computed := true }) ]

/-- The part of `schema.ResourceData` the resource uses: the identity and the
string attributes. -/
structure ResourceData where
  id : String
  attrs : List (String × String)
deriving DecidableEq, Repr

namespace ResourceData

/-- The method `d.Id()`. -/
def Id (d : ResourceData) : String := d.id

/-- The method `d.SetId(v)`. -/
def SetId (d : ResourceData) (v : String) : ResourceData :=
  { d with id := v }

/-- The method `d.Get(key).(string)`: the attribute, or the zero value. -/
def Get (d : ResourceData) (key : String) : String :=
  (d.attrs.lookup key).getD ""

/-- The method `d.Set(key, value)` for a `*string` value. The framework
writes the field only when `key` is declared in the resource schema;
otherwise it returns an error, which the source discards, and writes
nothing. A nil pointer writes the empty string. -/
def Set (d : ResourceData) (key : String) (value : Option String) : ResourceData :=
  if (resourceAwsElasticsearchPackageAssociation.lookup key).isSome then
    { d with attrs := (key, aws.StringValue value) :: d.attrs.filter (fun p => p.1 != key) }
  else d

end ResourceData

/-- How a Go function of type `func(...) error` left: it returned `err`
(`none` is `nil`), or it dereferenced a nil pointer. -/
inductive Exit where
  | returned (err : Option GoError)
  | nilDereference
deriving DecidableEq, Repr

/-- The result of running one operation. -/
structure Run where
  d : ResourceData
  calls : List Call
  exit : Exit
deriving DecidableEq, Repr

/-! ## The operations -/

/-- The request both lookups build: one filter named `PackageID` holding the
single value `packageID`. -/
def describeInput (packageID : String) : DescribePackagesInput :=
  { Filters := [{ Name := some "PackageID", Value := [some packageID] }] }

/-- The helper `getElasticsearchPackageAssociation`: the calls made, the details
pointer and the error it returns. -/
def getElasticsearchPackageAssociation (conn : ElasticsearchService)
    (calls : List Call) (packageID : String) :
    List Call × Option PackageDetails × Option GoError :=
  let input := describeInput packageID
  let calls1 := calls ++ [Call.DescribePackages input]
  match conn.DescribePackages calls input with
  | .error err => (calls1, none, some err)
  | .ok none => (calls1, none, none)
  | .ok (some output) =>
    match output.PackageDetailsList with
    | [] => (calls1, none, none)
    | first :: _ => (calls1, first, none)

/-- The operation `resourceAwsElasticsearchPackageAssociationRead`. -/
def resourceAwsElasticsearchPackageAssociationRead (conn : ElasticsearchService)
    (d : ResourceData) (calls : List Call) : Run :=
  let input := describeInput d.Id
  let calls1 := calls ++ [Call.DescribePackages input]
  match conn.DescribePackages calls input with
  | .error err =>
    if err.code = some "ResourceNotFoundException" then
      { d := d.SetId "", calls := calls1, exit := .returned none }
    else
      { d := d, calls := calls1, exit := .returned (some err) }
  | .ok none => { d := d, calls := calls1, exit := .nilDereference }
  | .ok (some out) =>
    let count := out.PackageDetailsList.length
    if count ≠ 1 then
      { d := d, calls := calls1,
        exit := .returned (some (fmt.Errorf
          ("unexpected number of packages returned: " ++ toString count))) }
    else
      match getElasticsearchPackageAssociation conn calls1 d.Id with
      | (calls2, _, some err) =>
        if isAWSErr err "ResourceNotFoundException" "" then
          { d := d.SetId "", calls := calls2, exit := .returned none }
        else
          { d := d, calls := calls2,
            exit := .returned (some (fmt.Errorf
              ("Error reading ElasticSearch Package: " ++ err.text))) }
      | (calls2, none, none) =>
        { d := d.SetId "", calls := calls2, exit := .returned none }
      | (calls2, some details, none) =>
        let d1 := d.SetId (aws.StringValue details.PackageID)
        let d2 := d1.Set "name" details.PackageName
        let d3 := d2.Set "description" details.PackageDescription
        let d4 := d3.Set "type" details.PackageType
        { d := d4, calls := calls2, exit := .returned none }

/-- The operation `resourceAwsElasticsearchPackageAssociationCreate`. -/
def resourceAwsElasticsearchPackageAssociationCreate (conn : ElasticsearchService)
    (d : ResourceData) (calls : List Call) : Run :=
  let domainName := d.Get "domain_name"
  let packageID := d.Get "package_id"
  let input : AssociatePackageInput :=
    { DomainName := some domainName, PackageID := some packageID }
  let calls1 := calls ++ [Call.AssociatePackage input]
  match conn.AssociatePackage calls input with
  | .error err =>
    { d := d, calls := calls1,
      exit := .returned (some (fmt.Errorf
        ("Error associating Elasticsearch Package (" ++ packageID ++
          ") with Elasticsearch Domain (" ++ domainName ++ "): " ++ err.text))) }
  | .ok none => { d := d, calls := calls1, exit := .nilDereference }
  | .ok (some output) =>
    match output.DomainPackageDetails with
    | none => { d := d, calls := calls1, exit := .nilDereference }
    | some details =>
      let id := "association-" ++ aws.StringValue details.DomainName ++ "-" ++
        aws.StringValue details.PackageID
      resourceAwsElasticsearchPackageAssociationRead conn (d.SetId id) calls1

/-- The operation `resourceAwsElasticsearchPackageAssociationDelete`. -/
def resourceAwsElasticsearchPackageAssociationDelete (conn : ElasticsearchService)
    (d : ResourceData) (calls : List Call) : Run :=
  let input : DeletePackageInput := { PackageID := some d.Id }
  let calls1 := calls ++ [Call.DeletePackage input]
  match conn.DeletePackage calls input with
  | some err =>
    { d := d, calls := calls1,
      exit := .returned (some (fmt.Errorf
        ("Error deleting Elasticsearch Package: " ++ err.text))) }
  | none => { d := d, calls := calls1, exit := .returned none }

/-! ## Sample remotes -/

/-- A remote whose catalog answers every query with the same answer and whose
other operations succeed with the given association details. -/
def constRemote (assoc : Option DomainPackageDetails)
    (answer : Except GoError (Option DescribePackagesOutput))
    (del : Option GoError) : ElasticsearchService :=
  { AssociatePackage := fun _ _ => .ok (some { DomainPackageDetails := assoc }),
    DescribePackages := fun _ _ => answer,
    DeletePackage := fun _ _ => del }

/-- A remote whose catalog gives `first` to a query made before any other call
and `later` to every query after that. -/
def changingRemote (first later : Except GoError (Option DescribePackagesOutput)) :
    ElasticsearchService :=
  { AssociatePackage := fun _ _ => .ok none,
    DescribePackages := fun calls _ => if calls.isEmpty then first else later,
    DeletePackage := fun _ _ => none }

/-- A remote whose `AssociatePackage` and `DeletePackage` fail with `err`. -/
def failingRemote (err : GoError) : ElasticsearchService :=
  { AssociatePackage := fun _ _ => .error err,
    DescribePackages := fun _ _ => .error err,
    DeletePackage := fun _ _ => some err }

/-- The AWS error of an unknown package. -/
def notFoundError : GoError :=
  { code := some "ResourceNotFoundException", message := "Package not found",
    text := "ResourceNotFoundException: Package not found" }

/-- An AWS error other than not-found. -/
def throttlingError : GoError :=
  { code := some "ThrottlingException", message := "Rate exceeded",
    text := "ThrottlingException: Rate exceeded" }

/-- A catalog record for package `pkg-123`. -/
def dictRecord : PackageDetails :=
  { PackageID := some "pkg-123", PackageName := some "my-dict",
    PackageDescription := some "custom dictionary", PackageType := some "TXT-DICTIONARY" }

/-- A catalog record for another package. -/
def otherRecord : PackageDetails :=
  { PackageID := some "pkg-777", PackageName := some "other",
    PackageDescription := none, PackageType := some "TXT-DICTIONARY" }

/-- A stored resource whose identity is the raw package id. -/
def storedResource : ResourceData :=
  { id := "pkg-123", attrs := [("domain_name", "es-logs"), ("package_id", "pkg-123")] }

/-! ## Shared lemmas -/

theorem stringsContains_empty (s : String) : stringsContains s "" = true := by
  simp [stringsContains]

theorem isAWSErr_notFound_iff (err : GoError) :
    isAWSErr err "ResourceNotFoundException" "" = true ↔
      err.code = some "ResourceNotFoundException" := by
  unfold isAWSErr
  cases h : err.code with
  | none => simp
  | some c => simp [stringsContains_empty]

/-- The helper adds exactly its one query to the calls made. -/
theorem getElasticsearchPackageAssociation_calls (conn : ElasticsearchService)
    (calls : List Call) (packageID : String) :
    (getElasticsearchPackageAssociation conn calls packageID).1 =
      calls ++ [Call.DescribePackages (describeInput packageID)] := by
  cases h : conn.DescribePackages calls (describeInput packageID) with
  | error e => simp [getElasticsearchPackageAssociation, h]
  | ok o =>
    cases o with
    | none => simp [getElasticsearchPackageAssociation, h]
    | some out =>
      cases hl : out.PackageDetailsList <;>
        simp [getElasticsearchPackageAssociation, h, hl]

/-! ## Read, branch by branch -/

/-- The three keys Read writes are not declared in the schema, so each write
is dropped. -/
theorem set_undeclared (d : ResourceData) (value : Option String) :
    d.Set "name" value = d ∧ d.Set "description" value = d ∧ d.Set "type" value = d := by
  refine ⟨?_, ?_, ?_⟩ <;>
    · unfold ResourceData.Set
      rw [if_neg (by decide)]

theorem read_first_notFound (conn : ElasticsearchService) (d : ResourceData)
    (calls : List Call) (err : GoError)
    (h : conn.DescribePackages calls (describeInput d.Id) = .error err)
    (hc : err.code = some "ResourceNotFoundException") :
    resourceAwsElasticsearchPackageAssociationRead conn d calls =
      { d := d.SetId "", calls := calls ++ [Call.DescribePackages (describeInput d.Id)],
        exit := .returned none } := by
  simp [resourceAwsElasticsearchPackageAssociationRead, h, hc]

theorem read_first_error (conn : ElasticsearchService) (d : ResourceData)
    (calls : List Call) (err : GoError)
    (h : conn.DescribePackages calls (describeInput d.Id) = .error err)
    (hc : err.code ≠ some "ResourceNotFoundException") :
    resourceAwsElasticsearchPackageAssociationRead conn d calls =
      { d := d, calls := calls ++ [Call.DescribePackages (describeInput d.Id)],
        exit := .returned (some err) } := by
  simp [resourceAwsElasticsearchPackageAssociationRead, h, hc]

theorem read_first_missing (conn : ElasticsearchService) (d : ResourceData)
    (calls : List Call)
    (h : conn.DescribePackages calls (describeInput d.Id) = .ok none) :
    resourceAwsElasticsearchPackageAssociationRead conn d calls =
      { d := d, calls := calls ++ [Call.DescribePackages (describeInput d.Id)],
        exit := .nilDereference } := by
  simp [resourceAwsElasticsearchPackageAssociationRead, h]

theorem read_count_mismatch (conn : ElasticsearchService) (d : ResourceData)
    (calls : List Call) (out : DescribePackagesOutput)
    (h : conn.DescribePackages calls (describeInput d.Id) = .ok (some out))
    (hn : out.PackageDetailsList.length ≠ 1) :
    resourceAwsElasticsearchPackageAssociationRead conn d calls =
      { d := d, calls := calls ++ [Call.DescribePackages (describeInput d.Id)],
        exit := .returned (some (fmt.Errorf
          ("unexpected number of packages returned: " ++
            toString out.PackageDetailsList.length))) } := by
  simp [resourceAwsElasticsearchPackageAssociationRead, h, hn]

theorem read_second_notFound (conn : ElasticsearchService) (d : ResourceData)
    (calls : List Call) (out : DescribePackagesOutput) (err : GoError)
    (h : conn.DescribePackages calls (describeInput d.Id) = .ok (some out))
    (hn : out.PackageDetailsList.length = 1)
    (h2 : conn.DescribePackages (calls ++ [Call.DescribePackages (describeInput d.Id)])
      (describeInput d.Id) = .error err)
    (hc : err.code = some "ResourceNotFoundException") :
    resourceAwsElasticsearchPackageAssociationRead conn d calls =
      { d := d.SetId "",
        calls := calls ++ [Call.DescribePackages (describeInput d.Id)] ++
          [Call.DescribePackages (describeInput d.Id)],
        exit := .returned none } := by
  have hi := (isAWSErr_notFound_iff err).2 hc
  simp [resourceAwsElasticsearchPackageAssociationRead, h, hn,
    getElasticsearchPackageAssociation, h2, hi]

theorem read_second_error (conn : ElasticsearchService) (d : ResourceData)
    (calls : List Call) (out : DescribePackagesOutput) (err : GoError)
    (h : conn.DescribePackages calls (describeInput d.Id) = .ok (some out))
    (hn : out.PackageDetailsList.length = 1)
    (h2 : conn.DescribePackages (calls ++ [Call.DescribePackages (describeInput d.Id)])
      (describeInput d.Id) = .error err)
    (hc : err.code ≠ some "ResourceNotFoundException") :
    resourceAwsElasticsearchPackageAssociationRead conn d calls =
      { d := d,
        calls := calls ++ [Call.DescribePackages (describeInput d.Id)] ++
          [Call.DescribePackages (describeInput d.Id)],
        exit := .returned (some (fmt.Errorf
          ("Error reading ElasticSearch Package: " ++ err.text))) } := by
  have hi : isAWSErr err "ResourceNotFoundException" "" = false := by
    cases hb : isAWSErr err "ResourceNotFoundException" ""
    · rfl
    · exact absurd ((isAWSErr_notFound_iff err).1 hb) hc
  simp [resourceAwsElasticsearchPackageAssociationRead, h, hn,
    getElasticsearchPackageAssociation, h2, hi]

theorem read_second_missing (conn : ElasticsearchService) (d : ResourceData)
    (calls : List Call) (out : DescribePackagesOutput)
    (h : conn.DescribePackages calls (describeInput d.Id) = .ok (some out))
    (hn : out.PackageDetailsList.length = 1)
    (h2 : conn.DescribePackages (calls ++ [Call.DescribePackages (describeInput d.Id)])
        (describeInput d.Id) = .ok none ∨
      conn.DescribePackages (calls ++ [Call.DescribePackages (describeInput d.Id)])
        (describeInput d.Id) = .ok (some { PackageDetailsList := [] })) :
    resourceAwsElasticsearchPackageAssociationRead conn d calls =
      { d := d.SetId "",
        calls := calls ++ [Call.DescribePackages (describeInput d.Id)] ++
          [Call.DescribePackages (describeInput d.Id)],
        exit := .returned none } := by
  rcases h2 with h2 | h2 <;>
    simp [resourceAwsElasticsearchPackageAssociationRead, h, hn,
      getElasticsearchPackageAssociation, h2]

theorem read_second_nil_record (conn : ElasticsearchService) (d : ResourceData)
    (calls : List Call) (out out2 : DescribePackagesOutput)
    (rest : List (Option PackageDetails))
    (h : conn.DescribePackages calls (describeInput d.Id) = .ok (some out))
    (hn : out.PackageDetailsList.length = 1)
    (h2 : conn.DescribePackages (calls ++ [Call.DescribePackages (describeInput d.Id)])
      (describeInput d.Id) = .ok (some out2))
    (hl : out2.PackageDetailsList = none :: rest) :
    resourceAwsElasticsearchPackageAssociationRead conn d calls =
      { d := d.SetId "",
        calls := calls ++ [Call.DescribePackages (describeInput d.Id)] ++
          [Call.DescribePackages (describeInput d.Id)],
        exit := .returned none } := by
  simp [resourceAwsElasticsearchPackageAssociationRead, h, hn,
    getElasticsearchPackageAssociation, h2, hl]

theorem read_second_record (conn : ElasticsearchService) (d : ResourceData)
    (calls : List Call) (out out2 : DescribePackagesOutput)
    (first : PackageDetails) (rest : List (Option PackageDetails))
    (h : conn.DescribePackages calls (describeInput d.Id) = .ok (some out))
    (hn : out.PackageDetailsList.length = 1)
    (h2 : conn.DescribePackages (calls ++ [Call.DescribePackages (describeInput d.Id)])
      (describeInput d.Id) = .ok (some out2))
    (hl : out2.PackageDetailsList = some first :: rest) :
    resourceAwsElasticsearchPackageAssociationRead conn d calls =
      { d := d.SetId (aws.StringValue first.PackageID),
        calls := calls ++ [Call.DescribePackages (describeInput d.Id)] ++
          [Call.DescribePackages (describeInput d.Id)],
        exit := .returned none } := by
  simp [resourceAwsElasticsearchPackageAssociationRead, h, hn,
    getElasticsearchPackageAssociation, h2, hl, set_undeclared]

/-! ## The lookup helper -/

/-- C9: the helper makes one `DescribePackages` query filtered on `PackageID`
with the single requested value; it returns the query's error unchanged, a nil
record without error for a missing response or an empty list, and otherwise the
first record of the list, whatever the length of the list and whatever the
record's id. -/
theorem getElasticsearchPackageAssociation_spec (conn : ElasticsearchService)
    (calls : List Call) (packageID : String) :
    (getElasticsearchPackageAssociation conn calls packageID).1 =
      calls ++ [Call.DescribePackages
        { Filters := [{ Name := some "PackageID", Value := [some packageID] }] }] ∧
    (∀ err, conn.DescribePackages calls (describeInput packageID) = .error err →
      (getElasticsearchPackageAssociation conn calls packageID).2 = (none, some err)) ∧
    (conn.DescribePackages calls (describeInput packageID) = .ok none →
      (getElasticsearchPackageAssociation conn calls packageID).2 = (none, none)) ∧
    (∀ out, conn.DescribePackages calls (describeInput packageID) = .ok (some out) →
      out.PackageDetailsList = [] →
      (getElasticsearchPackageAssociation conn calls packageID).2 = (none, none)) ∧
    (∀ out first rest,
      conn.DescribePackages calls (describeInput packageID) = .ok (some out) →
      out.PackageDetailsList = first :: rest →
      (getElasticsearchPackageAssociation conn calls packageID).2 = (first, none)) := by
  refine ⟨?_, ?_, ?_, ?_, ?_⟩
  · exact getElasticsearchPackageAssociation_calls conn calls packageID
  · intro err h
    simp [getElasticsearchPackageAssociation, h]
  · intro h
    simp [getElasticsearchPackageAssociation, h]
  · intro out h hl
    simp [getElasticsearchPackageAssociation, h, hl]
  · intro out first rest h hl
    simp [getElasticsearchPackageAssociation, h, hl]

/-- The helper at a catalog answering two records, neither holding the
requested id: the first one is returned. -/
theorem getElasticsearchPackageAssociation_spec_witness :
    (getElasticsearchPackageAssociation
      (constRemote none (.ok (some { PackageDetailsList := [some otherRecord, some dictRecord] })) none)
      [] "pkg-000").2 = (some otherRecord, none) :=
  (getElasticsearchPackageAssociation_spec
    (constRemote none (.ok (some { PackageDetailsList := [some otherRecord, some dictRecord] })) none)
    [] "pkg-000").2.2.2.2 { PackageDetailsList := [some otherRecord, some dictRecord] }
    (some otherRecord) [some dictRecord] rfl rfl

/-! ## Read: errors and absence -/

/-- A text that equals a description followed by itself has an empty
description. -/
theorem description_empty_of_self_wrap (t description : String)
    (h : t = description ++ t) : description = "" := by
  have hlen := congrArg String.length h
  rw [String.length_append] at hlen
  have h0 : description.length = 0 := by omega
  cases description with
  | mk l =>
    have : l.length = 0 := h0
    have hl : l = [] := List.length_eq_zero.mp this
    subst hl
    rfl

/-- C1: when a `DescribePackages` call made by Read fails with an AWS error of
code `ResourceNotFoundException`, be it the first query or the one the helper
makes after a first query that gave one record, Read sets the identity to the
empty string, changes nothing else and returns nil. -/
theorem read_not_found_clears_identity (conn : ElasticsearchService) (d : ResourceData)
    (calls : List Call) (err : GoError)
    (hcode : err.code = some "ResourceNotFoundException")
    (hfail : conn.DescribePackages calls (describeInput d.Id) = .error err ∨
      ∃ out, conn.DescribePackages calls (describeInput d.Id) = .ok (some out) ∧
        out.PackageDetailsList.length = 1 ∧
        conn.DescribePackages (calls ++ [Call.DescribePackages (describeInput d.Id)])
          (describeInput d.Id) = .error err) :
    (resourceAwsElasticsearchPackageAssociationRead conn d calls).d.Id = "" ∧
    (resourceAwsElasticsearchPackageAssociationRead conn d calls).d.attrs = d.attrs ∧
    (resourceAwsElasticsearchPackageAssociationRead conn d calls).exit = .returned none := by
  rcases hfail with h | ⟨out, h, hn, h2⟩
  · rw [read_first_notFound conn d calls err h hcode]
    exact ⟨rfl, rfl, rfl⟩
  · rw [read_second_notFound conn d calls out err h hn h2 hcode]
    exact ⟨rfl, rfl, rfl⟩

/-- Read at a catalog that knows the package at the first query and reports
not-found at the second. -/
theorem read_not_found_clears_identity_witness :
    (resourceAwsElasticsearchPackageAssociationRead
      (changingRemote (.ok (some { PackageDetailsList := [some dictRecord] }))
        (.error notFoundError)) storedResource []).d.Id = "" ∧
    (resourceAwsElasticsearchPackageAssociationRead
      (changingRemote (.ok (some { PackageDetailsList := [some dictRecord] }))
        (.error notFoundError)) storedResource []).d.attrs = storedResource.attrs ∧
    (resourceAwsElasticsearchPackageAssociationRead
      (changingRemote (.ok (some { PackageDetailsList := [some dictRecord] }))
        (.error notFoundError)) storedResource []).exit = .returned none :=
  read_not_found_clears_identity
    (changingRemote (.ok (some { PackageDetailsList := [some dictRecord] }))
      (.error notFoundError)) storedResource [] notFoundError rfl
    (Or.inr ⟨{ PackageDetailsList := [some dictRecord] }, rfl, rfl, rfl⟩)

/-- C2: when the first query succeeds with a list of `n` records and `n` is not
one, Read returns the error `unexpected number of packages returned: n`, leaves
the resource data as it was, and has made the first query only. -/
theorem read_count_mismatch_error (conn : ElasticsearchService) (d : ResourceData)
    (calls : List Call) (out : DescribePackagesOutput) (n : Nat)
    (h : conn.DescribePackages calls
      { Filters := [{ Name := some "PackageID", Value := [some d.Id] }] } = .ok (some out))
    (hlen : out.PackageDetailsList.length = n) (hn : n ≠ 1) :
    resourceAwsElasticsearchPackageAssociationRead conn d calls =
      { d := d,
        calls := calls ++ [Call.DescribePackages
          { Filters := [{ Name := some "PackageID", Value := [some d.Id] }] }],
        exit := .returned (some (fmt.Errorf
          ("unexpected number of packages returned: " ++ toString n))) } := by
  subst hlen
  exact read_count_mismatch conn d calls out h hn

/-- Read at a catalog answering two records. -/
theorem read_count_mismatch_error_witness :
    resourceAwsElasticsearchPackageAssociationRead
      (constRemote none (.ok (some { PackageDetailsList := [some otherRecord, some dictRecord] })) none)
      storedResource [] =
      { d := storedResource,
        calls := [Call.DescribePackages
          { Filters := [{ Name := some "PackageID", Value := [some "pkg-123"] }] }],
        exit := .returned (some (fmt.Errorf
          "unexpected number of packages returned: 2")) } :=
  read_count_mismatch_error
    (constRemote none (.ok (some { PackageDetailsList := [some otherRecord, some dictRecord] })) none)
    storedResource [] { PackageDetailsList := [some otherRecord, some dictRecord] } 2 rfl rfl
    (by decide)

/-- A stored resource whose package the catalog does not hold. -/
def unknownResource : ResourceData :=
  { id := "pkg-999", attrs := [("domain_name", "es-logs"), ("package_id", "pkg-999")] }

/-- C3, as stated, fails: at a catalog whose lookup for `pkg-999` succeeds with
an empty list, Read keeps the identity and returns the count error. -/
theorem read_empty_list_keeps_identity :
    (constRemote none (.ok (some { PackageDetailsList := [] })) none).DescribePackages []
      (describeInput unknownResource.Id) = .ok (some { PackageDetailsList := [] }) ∧
    (resourceAwsElasticsearchPackageAssociationRead
      (constRemote none (.ok (some { PackageDetailsList := [] })) none)
      unknownResource []).d.Id = "pkg-999" ∧
    (resourceAwsElasticsearchPackageAssociationRead
      (constRemote none (.ok (some { PackageDetailsList := [] })) none)
      unknownResource []).exit =
      .returned (some (fmt.Errorf "unexpected number of packages returned: 0")) ∧
    ¬ ((resourceAwsElasticsearchPackageAssociationRead
        (constRemote none (.ok (some { PackageDetailsList := [] })) none)
        unknownResource []).d.Id = "" ∧
      (resourceAwsElasticsearchPackageAssociationRead
        (constRemote none (.ok (some { PackageDetailsList := [] })) none)
        unknownResource []).exit = .returned none) := by
  refine ⟨rfl, ?_⟩
  decide

/-- C3, amended: when the first query gives exactly one record and the second
lookup, the helper's, succeeds with a missing response or an empty list, Read
sets the identity to the empty string, changes nothing else and returns nil. -/
theorem read_second_lookup_empty_clears_identity (conn : ElasticsearchService)
    (d : ResourceData) (calls : List Call) (out : DescribePackagesOutput)
    (h : conn.DescribePackages calls (describeInput d.Id) = .ok (some out))
    (hn : out.PackageDetailsList.length = 1)
    (h2 : conn.DescribePackages (calls ++ [Call.DescribePackages (describeInput d.Id)])
        (describeInput d.Id) = .ok none ∨
      conn.DescribePackages (calls ++ [Call.DescribePackages (describeInput d.Id)])
        (describeInput d.Id) = .ok (some { PackageDetailsList := [] })) :
    (resourceAwsElasticsearchPackageAssociationRead conn d calls).d.Id = "" ∧
    (resourceAwsElasticsearchPackageAssociationRead conn d calls).d.attrs = d.attrs ∧
    (resourceAwsElasticsearchPackageAssociationRead conn d calls).exit = .returned none := by
  rw [read_second_missing conn d calls out h hn h2]
  exact ⟨rfl, rfl, rfl⟩

/-- Read at a catalog that holds `pkg-999` at the first query and answers an
empty list at the second. -/
theorem read_second_lookup_empty_clears_identity_witness :
    (resourceAwsElasticsearchPackageAssociationRead
      (changingRemote (.ok (some { PackageDetailsList := [some otherRecord] }))
        (.ok (some { PackageDetailsList := [] }))) unknownResource []).d.Id = "" ∧
    (resourceAwsElasticsearchPackageAssociationRead
      (changingRemote (.ok (some { PackageDetailsList := [some otherRecord] }))
        (.ok (some { PackageDetailsList := [] }))) unknownResource []).d.attrs =
      unknownResource.attrs ∧
    (resourceAwsElasticsearchPackageAssociationRead
      (changingRemote (.ok (some { PackageDetailsList := [some otherRecord] }))
        (.ok (some { PackageDetailsList := [] }))) unknownResource []).exit =
      .returned none :=
  read_second_lookup_empty_clears_identity
    (changingRemote (.ok (some { PackageDetailsList := [some otherRecord] }))
      (.ok (some { PackageDetailsList := [] }))) unknownResource []
    { PackageDetailsList := [some otherRecord] } rfl rfl (Or.inr rfl)

/-- C8, as stated, fails for the first query: its error comes back as it is,
with no description put before it. -/
theorem read_first_error_not_wrapped :
    throttlingError.code ≠ some "ResourceNotFoundException" ∧
    (failingRemote throttlingError).DescribePackages []
      (describeInput storedResource.Id) = .error throttlingError ∧
    (resourceAwsElasticsearchPackageAssociationRead (failingRemote throttlingError)
      storedResource []).exit = .returned (some throttlingError) ∧
    ¬ ∃ description : String, description ≠ "" ∧ ∃ e : GoError,
      (resourceAwsElasticsearchPackageAssociationRead (failingRemote throttlingError)
        storedResource []).exit = .returned (some e) ∧
      e.text = description ++ throttlingError.text := by
  refine ⟨by decide, rfl, by decide, ?_⟩
  rintro ⟨description, hne, e, h, ht⟩
  have h1 : (resourceAwsElasticsearchPackageAssociationRead (failingRemote throttlingError)
      storedResource []).exit = .returned (some throttlingError) := by decide
  rw [h1] at h
  injection h with h
  injection h with h
  subst h
  exact hne (description_empty_of_self_wrap _ _ ht)

/-- C8, amended: when a `DescribePackages` call made by Read fails with an error
that is not a `ResourceNotFoundException`, Read returns a non-nil error and
leaves the resource data as it was; the error of the first query is returned
as it is, and the error of the second lookup is returned with the text
`Error reading ElasticSearch Package: ` put before its own. -/
theorem read_other_error_propagated (conn : ElasticsearchService) (d : ResourceData)
    (calls : List Call) (err : GoError)
    (hcode : err.code ≠ some "ResourceNotFoundException") :
    (conn.DescribePackages calls (describeInput d.Id) = .error err →
      resourceAwsElasticsearchPackageAssociationRead conn d calls =
        { d := d, calls := calls ++ [Call.DescribePackages (describeInput d.Id)],
          exit := .returned (some err) }) ∧
    (∀ out, conn.DescribePackages calls (describeInput d.Id) = .ok (some out) →
      out.PackageDetailsList.length = 1 →
      conn.DescribePackages (calls ++ [Call.DescribePackages (describeInput d.Id)])
        (describeInput d.Id) = .error err →
      resourceAwsElasticsearchPackageAssociationRead conn d calls =
        { d := d,
          calls := calls ++ [Call.DescribePackages (describeInput d.Id)] ++
            [Call.DescribePackages (describeInput d.Id)],
          exit := .returned (some (fmt.Errorf
            ("Error reading ElasticSearch Package: " ++ err.text))) }) :=
  ⟨fun h => read_first_error conn d calls err h hcode,
   fun out h hn h2 => read_second_error conn d calls out err h hn h2 hcode⟩

/-- Read at a catalog that holds the package at the first query and is
throttled at the second. -/
theorem read_other_error_propagated_witness :
    resourceAwsElasticsearchPackageAssociationRead
      (changingRemote (.ok (some { PackageDetailsList := [some dictRecord] }))
        (.error throttlingError)) storedResource [] =
      { d := storedResource,
        calls := [Call.DescribePackages (describeInput "pkg-123"),
          Call.DescribePackages (describeInput "pkg-123")],
        exit := .returned (some (fmt.Errorf
          "Error reading ElasticSearch Package: ThrottlingException: Rate exceeded")) } :=
  (read_other_error_propagated
    (changingRemote (.ok (some { PackageDetailsList := [some dictRecord] }))
      (.error throttlingError)) storedResource [] throttlingError (by decide)).2
    { PackageDetailsList := [some dictRecord] } rfl rfl rfl

/-! ## Delete -/

/-- C6: Delete makes one remote call, `DeletePackage` with the stored identity
as package id; it returns nil exactly when that call succeeds; on any failure
it returns `Error deleting Elasticsearch Package: ` followed by the cause; and
the resource data stays as it was. -/
theorem delete_spec (conn : ElasticsearchService) (d : ResourceData) (calls : List Call) :
    (resourceAwsElasticsearchPackageAssociationDelete conn d calls).calls =
      calls ++ [Call.DeletePackage { PackageID := some d.Id }] ∧
    (resourceAwsElasticsearchPackageAssociationDelete conn d calls).d = d ∧
    ((resourceAwsElasticsearchPackageAssociationDelete conn d calls).exit = .returned none ↔
      conn.DeletePackage calls { PackageID := some d.Id } = none) ∧
    (∀ err, conn.DeletePackage calls { PackageID := some d.Id } = some err →
      (resourceAwsElasticsearchPackageAssociationDelete conn d calls).exit =
        .returned (some (fmt.Errorf
          ("Error deleting Elasticsearch Package: " ++ err.text)))) := by
  cases h : conn.DeletePackage calls { PackageID := some d.Id } with
  | none => simp [resourceAwsElasticsearchPackageAssociationDelete, h]
  | some e => simp [resourceAwsElasticsearchPackageAssociationDelete, h]

/-- Delete of a package that is already gone: the not-found error comes back
as an error. -/
theorem delete_spec_witness :
    (resourceAwsElasticsearchPackageAssociationDelete (failingRemote notFoundError)
      storedResource []).exit =
      .returned (some (fmt.Errorf
        "Error deleting Elasticsearch Package: ResourceNotFoundException: Package not found")) :=
  (delete_spec (failingRemote notFoundError) storedResource []).2.2.2 notFoundError rfl

/-! ## Create -/

/-- C7: when `AssociatePackage` fails with cause `err`, Create returns the error
annotated with the configured package id and domain name, has made that one
call only, and leaves the resource data as it was. -/
theorem create_associate_failure (conn : ElasticsearchService) (d : ResourceData)
    (calls : List Call) (err : GoError)
    (h : conn.AssociatePackage calls
      { DomainName := some (d.Get "domain_name"),
        PackageID := some (d.Get "package_id") } = .error err) :
    resourceAwsElasticsearchPackageAssociationCreate conn d calls =
      { d := d,
        calls := calls ++ [Call.AssociatePackage
          { DomainName := some (d.Get "domain_name"),
            PackageID := some (d.Get "package_id") }],
        exit := .returned (some (fmt.Errorf
          ("Error associating Elasticsearch Package (" ++ d.Get "package_id" ++
            ") with Elasticsearch Domain (" ++ d.Get "domain_name" ++ "): " ++
            err.text))) } := by
  simp [resourceAwsElasticsearchPackageAssociationCreate, h]

/-- Create at a remote that throttles the association. -/
theorem create_associate_failure_witness :
    resourceAwsElasticsearchPackageAssociationCreate (failingRemote throttlingError)
      storedResource [] =
      { d := storedResource,
        calls := [Call.AssociatePackage
          { DomainName := some "es-logs", PackageID := some "pkg-123" }],
        exit := .returned (some (fmt.Errorf
          ("Error associating Elasticsearch Package (pkg-123) with " ++
            "Elasticsearch Domain (es-logs): ThrottlingException: Rate exceeded"))) } :=
  create_associate_failure (failingRemote throttlingError) storedResource []
    throttlingError rfl

/-- Read starts with the query filtered on the stored identity. -/
theorem read_calls_start (conn : ElasticsearchService) (d : ResourceData)
    (calls : List Call) :
    ∃ rest, (resourceAwsElasticsearchPackageAssociationRead conn d calls).calls =
      calls ++ Call.DescribePackages (describeInput d.Id) :: rest := by
  cases h : conn.DescribePackages calls (describeInput d.Id) with
  | error err =>
    by_cases hc : err.code = some "ResourceNotFoundException"
    · exact ⟨[], by rw [read_first_notFound conn d calls err h hc]⟩
    · exact ⟨[], by rw [read_first_error conn d calls err h hc]⟩
  | ok o =>
    cases o with
    | none => exact ⟨[], by rw [read_first_missing conn d calls h]⟩
    | some out =>
      by_cases hn : out.PackageDetailsList.length = 1
      · refine ⟨[Call.DescribePackages (describeInput d.Id)], ?_⟩
        cases h2 : conn.DescribePackages
            (calls ++ [Call.DescribePackages (describeInput d.Id)]) (describeInput d.Id) with
        | error err =>
          by_cases hc : err.code = some "ResourceNotFoundException"
          · rw [read_second_notFound conn d calls out err h hn h2 hc]; simp
          · rw [read_second_error conn d calls out err h hn h2 hc]; simp
        | ok o2 =>
          cases o2 with
          | none => rw [read_second_missing conn d calls out h hn (Or.inl h2)]; simp
          | some out2 =>
            cases hl : out2.PackageDetailsList with
            | nil =>
              have h2b : conn.DescribePackages
                  (calls ++ [Call.DescribePackages (describeInput d.Id)])
                  (describeInput d.Id) = .ok (some { PackageDetailsList := [] }) := by
                rw [h2, ← hl]
              rw [read_second_missing conn d calls out h hn (Or.inr h2b)]; simp
            | cons first rest =>
              cases first with
              | none =>
                rw [read_second_nil_record conn d calls out out2 rest h hn h2 hl]; simp
              | some record =>
                rw [read_second_record conn d calls out out2 record rest h hn h2 hl]; simp
      · exact ⟨[], by rw [read_count_mismatch conn d calls out h hn]⟩

/-- The composite identity is never the raw package id. -/
theorem composite_ne_raw (domain package : String) :
    "association-" ++ domain ++ "-" ++ package ≠ package := by
  intro h
  have hlen := congrArg String.length h
  simp only [String.length_append] at hlen
  have h12 : "association-".length = 12 := by decide
  omega

/-- C4: when `AssociatePackage` succeeds with details of domain name `D` and
package id `P`, Create goes on as Read run on the resource whose identity is
`association-` followed by `D`, `-` and `P` (a nil pointer giving the empty
string); so the first catalog query of that Read, the call right after the
association, is filtered on this composite string, which is not the raw `P`. -/
theorem create_sets_composite_identity (conn : ElasticsearchService) (d : ResourceData)
    (calls : List Call) (D P : Option String)
    (h : conn.AssociatePackage calls
      { DomainName := some (d.Get "domain_name"),
        PackageID := some (d.Get "package_id") } =
      .ok (some { DomainPackageDetails := some { DomainName := D, PackageID := P } })) :
    resourceAwsElasticsearchPackageAssociationCreate conn d calls =
      resourceAwsElasticsearchPackageAssociationRead conn
        (d.SetId ("association-" ++ aws.StringValue D ++ "-" ++ aws.StringValue P))
        (calls ++ [Call.AssociatePackage
          { DomainName := some (d.Get "domain_name"),
            PackageID := some (d.Get "package_id") }]) ∧
    (d.SetId ("association-" ++ aws.StringValue D ++ "-" ++ aws.StringValue P)).Id =
      "association-" ++ aws.StringValue D ++ "-" ++ aws.StringValue P ∧
    (∃ rest, (resourceAwsElasticsearchPackageAssociationCreate conn d calls).calls =
      calls ++ [Call.AssociatePackage
          { DomainName := some (d.Get "domain_name"),
            PackageID := some (d.Get "package_id") },
        Call.DescribePackages
          (describeInput
            ("association-" ++ aws.StringValue D ++ "-" ++ aws.StringValue P))] ++ rest) ∧
    describeInput ("association-" ++ aws.StringValue D ++ "-" ++ aws.StringValue P) =
      { Filters := [{ Name := some "PackageID", Value := [some
        ("association-" ++ aws.StringValue D ++ "-" ++ aws.StringValue P)] }] } ∧
    "association-" ++ aws.StringValue D ++ "-" ++ aws.StringValue P ≠
      aws.StringValue P := by
  have hc : resourceAwsElasticsearchPackageAssociationCreate conn d calls =
      resourceAwsElasticsearchPackageAssociationRead conn
        (d.SetId ("association-" ++ aws.StringValue D ++ "-" ++ aws.StringValue P))
        (calls ++ [Call.AssociatePackage
          { DomainName := some (d.Get "domain_name"),
            PackageID := some (d.Get "package_id") }]) := by
    simp [resourceAwsElasticsearchPackageAssociationCreate, h]
  refine ⟨hc, rfl, ?_, rfl, composite_ne_raw _ _⟩
  obtain ⟨rest, hr⟩ := read_calls_start conn
    (d.SetId ("association-" ++ aws.StringValue D ++ "-" ++ aws.StringValue P))
    (calls ++ [Call.AssociatePackage
      { DomainName := some (d.Get "domain_name"),
        PackageID := some (d.Get "package_id") }])
  refine ⟨rest, ?_⟩
  rw [hc, hr]
  simp [describeInput, ResourceData.Id, ResourceData.SetId]

/-- A resource as configured, before Create: no identity yet. -/
def configuredResource : ResourceData :=
  { id := "", attrs := [("domain_name", "es-logs"), ("package_id", "pkg-123")] }

/-- A remote that associates `pkg-123` with `es-logs` and whose catalog answers
every query with the one record of that package. -/
def catalogRemote : ElasticsearchService :=
  constRemote (some { DomainName := some "es-logs", PackageID := some "pkg-123" })
    (.ok (some { PackageDetailsList := [some dictRecord] })) none

/-- Create for domain `es-logs` and package `pkg-123`: the identity Read starts
from is `association-es-logs-pkg-123`. -/
theorem create_sets_composite_identity_witness :
    resourceAwsElasticsearchPackageAssociationCreate catalogRemote configuredResource [] =
      resourceAwsElasticsearchPackageAssociationRead catalogRemote
        (configuredResource.SetId "association-es-logs-pkg-123")
        [Call.AssociatePackage
          { DomainName := some "es-logs", PackageID := some "pkg-123" }] ∧
    (configuredResource.SetId "association-es-logs-pkg-123").Id =
      "association-es-logs-pkg-123" ∧
    (∃ rest, (resourceAwsElasticsearchPackageAssociationCreate catalogRemote
        configuredResource []).calls =
      [Call.AssociatePackage
          { DomainName := some "es-logs", PackageID := some "pkg-123" },
        Call.DescribePackages
          (describeInput "association-es-logs-pkg-123")] ++ rest) ∧
    describeInput "association-es-logs-pkg-123" =
      { Filters := [{ Name := some "PackageID",
                      Value := [some "association-es-logs-pkg-123"] }] } ∧
    "association-es-logs-pkg-123" ≠ "pkg-123" :=
  create_sets_composite_identity catalogRemote configuredResource []
    (some "es-logs") (some "pkg-123") rfl

/-- C5 fails on the code: after a Create whose association succeeds and whose
Read finds the one record of the package at both lookups, `package_name` and
`package_type` are still unset, though the record names `my-dict` of type
`TXT-DICTIONARY`; Read writes the keys `name`, `description` and `type`, which
the schema does not declare. -/
theorem create_leaves_package_attributes_unset :
    (resourceAwsElasticsearchPackageAssociationCreate catalogRemote
      configuredResource []).exit = .returned none ∧
    (resourceAwsElasticsearchPackageAssociationCreate catalogRemote
      configuredResource []).calls =
      [Call.AssociatePackage { DomainName := some "es-logs", PackageID := some "pkg-123" },
        Call.DescribePackages (describeInput "association-es-logs-pkg-123"),
        Call.DescribePackages (describeInput "association-es-logs-pkg-123")] ∧
    (resourceAwsElasticsearchPackageAssociationCreate catalogRemote
      configuredResource []).d.Id = "pkg-123" ∧
    dictRecord.PackageName = some "my-dict" ∧
    dictRecord.PackageType = some "TXT-DICTIONARY" ∧
    (resourceAwsElasticsearchPackageAssociationCreate catalogRemote
      configuredResource []).d.Get "package_name" = "" ∧
    (resourceAwsElasticsearchPackageAssociationCreate catalogRemote
      configuredResource []).d.Get "package_type" = "" ∧
    (resourceAwsElasticsearchPackageAssociationCreate catalogRemote
      configuredResource []).d.attrs = configuredResource.attrs := by
  decide

/-! ## Read against a remote that answers both lookups alike -/

/-- A remote whose catalog answers every query with a list of one nil record. -/
def nilRecordRemote : ElasticsearchService :=
  constRemote none (.ok (some { PackageDetailsList := [none] })) none

/-- A remote whose catalog answers every query with no error and no response. -/
def missingResponseRemote : ElasticsearchService :=
  constRemote none (.ok none) none

/-- C10, as stated, fails: at a catalog answering both queries alike with a
list of one nil record, the count is one, the helper returns nil details with
no error, and Read takes the nil-details branch: it clears the identity and
returns nil after two queries, though no call reported not-found, which is none
of the three outcomes. At a catalog answering both queries alike with no error
and no response, Read dereferences nil and does not return at all. -/
theorem read_same_answer_nil_record :
    nilRecordRemote.DescribePackages
      [Call.DescribePackages (describeInput storedResource.Id)]
      (describeInput storedResource.Id) =
      nilRecordRemote.DescribePackages [] (describeInput storedResource.Id) ∧
    nilRecordRemote.DescribePackages [] (describeInput storedResource.Id) =
      .ok (some { PackageDetailsList := [none] }) ∧
    getElasticsearchPackageAssociation nilRecordRemote
      [Call.DescribePackages (describeInput storedResource.Id)] storedResource.Id =
      ([Call.DescribePackages (describeInput storedResource.Id),
        Call.DescribePackages (describeInput storedResource.Id)], none, none) ∧
    resourceAwsElasticsearchPackageAssociationRead nilRecordRemote storedResource [] =
      { d := storedResource.SetId "",
        calls := [Call.DescribePackages (describeInput storedResource.Id),
          Call.DescribePackages (describeInput storedResource.Id)],
        exit := .returned none } ∧
    ¬ (
      (∃ err, nilRecordRemote.DescribePackages [] (describeInput storedResource.Id) = .error err ∧
        err.code = some "ResourceNotFoundException" ∧
        resourceAwsElasticsearchPackageAssociationRead nilRecordRemote storedResource [] =
          { d := storedResource.SetId "", calls := [Call.DescribePackages (describeInput storedResource.Id)],
            exit := .returned none }) ∨
      (∃ e, ((nilRecordRemote.DescribePackages [] (describeInput storedResource.Id) = .error e ∧
            e.code ≠ some "ResourceNotFoundException") ∨
          ∃ out, nilRecordRemote.DescribePackages [] (describeInput storedResource.Id) = .ok (some out) ∧
            out.PackageDetailsList.length ≠ 1 ∧
            e = fmt.Errorf ("unexpected number of packages returned: " ++
              toString out.PackageDetailsList.length)) ∧
        resourceAwsElasticsearchPackageAssociationRead nilRecordRemote storedResource [] =
          { d := storedResource, calls := [Call.DescribePackages (describeInput storedResource.Id)],
            exit := .returned (some e) }) ∨
      (∃ record, nilRecordRemote.DescribePackages [] (describeInput storedResource.Id) =
          .ok (some { PackageDetailsList := [some record] }) ∧
        getElasticsearchPackageAssociation nilRecordRemote
          ([Call.DescribePackages (describeInput storedResource.Id)]) storedResource.Id =
          ([Call.DescribePackages (describeInput storedResource.Id), Call.DescribePackages (describeInput storedResource.Id)],
            some record, none) ∧
        resourceAwsElasticsearchPackageAssociationRead nilRecordRemote storedResource [] =
          { d := storedResource.SetId (aws.StringValue record.PackageID),
            calls := [Call.DescribePackages (describeInput storedResource.Id), Call.DescribePackages (describeInput storedResource.Id)],
            exit := .returned none } ∧
        (aws.StringValue record.PackageID = storedResource.Id →
          nilRecordRemote.DescribePackages
            ([Call.DescribePackages (describeInput storedResource.Id), Call.DescribePackages (describeInput storedResource.Id)])
            (describeInput storedResource.Id) = nilRecordRemote.DescribePackages [] (describeInput storedResource.Id) →
          nilRecordRemote.DescribePackages
            ([Call.DescribePackages (describeInput storedResource.Id), Call.DescribePackages (describeInput storedResource.Id), Call.DescribePackages (describeInput storedResource.Id)])
            (describeInput storedResource.Id) = nilRecordRemote.DescribePackages [] (describeInput storedResource.Id) →
          (resourceAwsElasticsearchPackageAssociationRead nilRecordRemote
            (resourceAwsElasticsearchPackageAssociationRead nilRecordRemote storedResource []).d
            (resourceAwsElasticsearchPackageAssociationRead nilRecordRemote storedResource []).calls).d =
            (resourceAwsElasticsearchPackageAssociationRead nilRecordRemote storedResource []).d ∧
          (resourceAwsElasticsearchPackageAssociationRead nilRecordRemote
            (resourceAwsElasticsearchPackageAssociationRead nilRecordRemote storedResource []).d
            (resourceAwsElasticsearchPackageAssociationRead nilRecordRemote storedResource []).calls).exit =
            .returned none))) ∧
    missingResponseRemote.DescribePackages
      [Call.DescribePackages (describeInput storedResource.Id)]
      (describeInput storedResource.Id) =
      missingResponseRemote.DescribePackages [] (describeInput storedResource.Id) ∧
    resourceAwsElasticsearchPackageAssociationRead missingResponseRemote storedResource [] =
      { d := storedResource,
        calls := [Call.DescribePackages (describeInput storedResource.Id)],
        exit := .nilDereference } := by
  have hf : nilRecordRemote.DescribePackages [] (describeInput storedResource.Id) =
      .ok (some { PackageDetailsList := [none] }) := rfl
  refine ⟨rfl, rfl, by decide, by decide, ?_, rfl, by decide⟩
  rintro (⟨err, h, -⟩ | ⟨e, (⟨h, -⟩ | ⟨out, h, hn, -⟩), -⟩ | ⟨record, h, -⟩)
  · rw [hf] at h
    cases h
  · rw [hf] at h
    cases h
  · rw [hf] at h
    injection h with h
    injection h with h
    subst h
    exact hn rfl
  · rw [hf] at h
    injection h with h
    injection h with h
    injection h with h
    injection h with h
    cases h

/-- C10, amended: when the remote gives the second of the two identical queries
of one Read the answer it gave the first, and that answer is an error or a
present response whose list is not a single nil record, Read ends in one of
three ways: the identity is cleared and nil is returned, at a not-found error
of the first query; the resource data is unchanged and an error is returned, at
another error or at a count other than one, again after the first query only;
or the helper returns the single record with no error, so neither its error
branch nor the nil-details branch is taken, the identity becomes that record's
`PackageID` and nil is returned. In the last case, if the record's `PackageID`
is the identity queried, a further Read given the same answer leaves the
resource data unchanged. -/
theorem read_same_answer_outcomes (conn : ElasticsearchService) (d : ResourceData)
    (calls : List Call)
    (hpresent : conn.DescribePackages calls (describeInput d.Id) ≠ .ok none)
    (hrecord : conn.DescribePackages calls (describeInput d.Id) ≠
      .ok (some { PackageDetailsList := [none] }))
    (hsame : conn.DescribePackages (calls ++ [Call.DescribePackages (describeInput d.Id)])
      (describeInput d.Id) = conn.DescribePackages calls (describeInput d.Id)) :
    (∃ err, conn.DescribePackages calls (describeInput d.Id) = .error err ∧
      err.code = some "ResourceNotFoundException" ∧
      resourceAwsElasticsearchPackageAssociationRead conn d calls =
        { d := d.SetId "", calls := calls ++ [Call.DescribePackages (describeInput d.Id)],
          exit := .returned none }) ∨
    (∃ e, ((conn.DescribePackages calls (describeInput d.Id) = .error e ∧
          e.code ≠ some "ResourceNotFoundException") ∨
        ∃ out, conn.DescribePackages calls (describeInput d.Id) = .ok (some out) ∧
          out.PackageDetailsList.length ≠ 1 ∧
          e = fmt.Errorf ("unexpected number of packages returned: " ++
            toString out.PackageDetailsList.length)) ∧
      resourceAwsElasticsearchPackageAssociationRead conn d calls =
        { d := d, calls := calls ++ [Call.DescribePackages (describeInput d.Id)],
          exit := .returned (some e) }) ∨
    (∃ record, conn.DescribePackages calls (describeInput d.Id) =
        .ok (some { PackageDetailsList := [some record] }) ∧
      getElasticsearchPackageAssociation conn
        (calls ++ [Call.DescribePackages (describeInput d.Id)]) d.Id =
        (calls ++ [Call.DescribePackages (describeInput d.Id)] ++ [Call.DescribePackages (describeInput d.Id)],
          some record, none) ∧
      resourceAwsElasticsearchPackageAssociationRead conn d calls =
        { d := d.SetId (aws.StringValue record.PackageID),
          calls := calls ++ [Call.DescribePackages (describeInput d.Id)] ++ [Call.DescribePackages (describeInput d.Id)],
          exit := .returned none } ∧
      (aws.StringValue record.PackageID = d.Id →
        conn.DescribePackages
          (calls ++ [Call.DescribePackages (describeInput d.Id)] ++ [Call.DescribePackages (describeInput d.Id)])
          (describeInput d.Id) = conn.DescribePackages calls (describeInput d.Id) →
        conn.DescribePackages
          (calls ++ [Call.DescribePackages (describeInput d.Id)] ++ [Call.DescribePackages (describeInput d.Id)] ++ [Call.DescribePackages (describeInput d.Id)])
          (describeInput d.Id) = conn.DescribePackages calls (describeInput d.Id) →
        (resourceAwsElasticsearchPackageAssociationRead conn
          (resourceAwsElasticsearchPackageAssociationRead conn d calls).d
          (resourceAwsElasticsearchPackageAssociationRead conn d calls).calls).d =
          (resourceAwsElasticsearchPackageAssociationRead conn d calls).d ∧
        (resourceAwsElasticsearchPackageAssociationRead conn
          (resourceAwsElasticsearchPackageAssociationRead conn d calls).d
          (resourceAwsElasticsearchPackageAssociationRead conn d calls).calls).exit =
          .returned none)) := by
  cases h : conn.DescribePackages calls (describeInput d.Id) with
  | error err =>
    by_cases hc : err.code = some "ResourceNotFoundException"
    · exact Or.inl ⟨err, rfl, hc, read_first_notFound conn d calls err h hc⟩
    · exact Or.inr (Or.inl ⟨err, Or.inl ⟨rfl, hc⟩, read_first_error conn d calls err h hc⟩)
  | ok o =>
    cases o with
    | none => exact absurd h hpresent
    | some out =>
      by_cases hn : out.PackageDetailsList.length = 1
      · obtain ⟨head, hrec⟩ := List.length_eq_one.mp hn
        have hout : out = { PackageDetailsList := [head] } := by
          cases out
          simp only at hrec
          rw [hrec]
        cases head with
        | none => exact absurd (by rw [h, hout]) hrecord
        | some record =>
          have h2 : conn.DescribePackages
              (calls ++ [Call.DescribePackages (describeInput d.Id)]) (describeInput d.Id) =
              .ok (some out) := by rw [hsame, h]
          have hread := read_second_record conn d calls out out record [] h hn h2 hrec
          refine Or.inr (Or.inr ⟨record, by rw [hout], ?_, hread, ?_⟩)
          · simp [getElasticsearchPackageAssociation, h2, hrec]
          · intro hid h3 h4
            have hd : d.SetId (aws.StringValue record.PackageID) = d := by
              rw [hid]
              rfl
            rw [hread]
            simp only [hd]
            have hread2 := read_second_record conn d
              (calls ++ [Call.DescribePackages (describeInput d.Id)] ++
                [Call.DescribePackages (describeInput d.Id)]) out out record []
              h3 hn h4 hrec
            rw [hread2]
            exact ⟨hd, rfl⟩
      · exact Or.inr (Or.inl ⟨_, Or.inr ⟨out, rfl, hn, rfl⟩,
          read_count_mismatch conn d calls out h hn⟩)

/-- Read of the stored `pkg-123` at a catalog answering the one record of that
package to every query. -/
theorem read_same_answer_outcomes_witness :
    (∃ err, catalogRemote.DescribePackages [] (describeInput storedResource.Id) = .error err ∧
      err.code = some "ResourceNotFoundException" ∧
      resourceAwsElasticsearchPackageAssociationRead catalogRemote storedResource [] =
        { d := storedResource.SetId "", calls := [Call.DescribePackages (describeInput storedResource.Id)],
          exit := .returned none }) ∨
    (∃ e, ((catalogRemote.DescribePackages [] (describeInput storedResource.Id) = .error e ∧
          e.code ≠ some "ResourceNotFoundException") ∨
        ∃ out, catalogRemote.DescribePackages [] (describeInput storedResource.Id) = .ok (some out) ∧
          out.PackageDetailsList.length ≠ 1 ∧
          e = fmt.Errorf ("unexpected number of packages returned: " ++
            toString out.PackageDetailsList.length)) ∧
      resourceAwsElasticsearchPackageAssociationRead catalogRemote storedResource [] =
        { d := storedResource, calls := [Call.DescribePackages (describeInput storedResource.Id)],
          exit := .returned (some e) }) ∨
    (∃ record, catalogRemote.DescribePackages [] (describeInput storedResource.Id) =
        .ok (some { PackageDetailsList := [some record] }) ∧
      getElasticsearchPackageAssociation catalogRemote
        ([Call.DescribePackages (describeInput storedResource.Id)]) storedResource.Id =
        ([Call.DescribePackages (describeInput storedResource.Id), Call.DescribePackages (describeInput storedResource.Id)],
          some record, none) ∧
      resourceAwsElasticsearchPackageAssociationRead catalogRemote storedResource [] =
        { d := storedResource.SetId (aws.StringValue record.PackageID),
          calls := [Call.DescribePackages (describeInput storedResource.Id), Call.DescribePackages (describeInput storedResource.Id)],
          exit := .returned none } ∧
      (aws.StringValue record.PackageID = storedResource.Id →
        catalogRemote.DescribePackages
          ([Call.DescribePackages (describeInput storedResource.Id), Call.DescribePackages (describeInput storedResource.Id)])
          (describeInput storedResource.Id) = catalogRemote.DescribePackages [] (describeInput storedResource.Id) →
        catalogRemote.DescribePackages
          ([Call.DescribePackages (describeInput storedResource.Id), Call.DescribePackages (describeInput storedResource.Id), Call.DescribePackages (describeInput storedResource.Id)])
          (describeInput storedResource.Id) = catalogRemote.DescribePackages [] (describeInput storedResource.Id) →
        (resourceAwsElasticsearchPackageAssociationRead catalogRemote
          (resourceAwsElasticsearchPackageAssociationRead catalogRemote storedResource []).d
          (resourceAwsElasticsearchPackageAssociationRead catalogRemote storedResource []).calls).d =
          (resourceAwsElasticsearchPackageAssociationRead catalogRemote storedResource []).d ∧
        (resourceAwsElasticsearchPackageAssociationRead catalogRemote
          (resourceAwsElasticsearchPackageAssociationRead catalogRemote storedResource []).d
          (resourceAwsElasticsearchPackageAssociationRead catalogRemote storedResource []).calls).exit =
          .returned none)) :=
  read_same_answer_outcomes catalogRemote storedResource []
    (by intro h; cases h) (by intro h; cases h) rfl

end EsPackageAssociation
